import Mathlib

/-!
Verification of the Heart-Rate-Tracking reading classifier and analytics
engine.  The repository's frontend (`src/frontend/src/App.js`) is embedded
directly; the backend classification/summarization engine is not present in
the source tree, so it is modelled from the specification (§3, §4.1, §7),
as noted on each such definition.
-/

namespace HeartRate

/-- The fixed set of clinical categories (spec §4.1). -/
inductive Category where
  | Normal
  | Elevated
  | Stage1
  | Stage2
  | Crisis
deriving DecidableEq, Repr

/-- The display label of each category, as it appears in the UI and in the
`category_distribution` keys. -/
def Category.label : Category → String
  | .Normal => "Normal"
  | .Elevated => "Elevated"
  | .Stage1 => "Stage 1"
  | .Stage2 => "Stage 2"
  | .Crisis => "Crisis"

/-- Modelled from the spec: the backend `classify(systolic, diastolic)`
operation is absent from `src/`; this follows the ordered cascade of
spec §4.1 literally (first matching rule wins, most severe first). -/
def classify (s d : Int) : Category :=
  if s ≥ 180 ∨ d ≥ 120 then .Crisis
  else if s ≥ 140 ∨ d ≥ 90 then .Stage2
  else if s ≥ 130 ∨ d ≥ 80 then .Stage1
  else if s ≥ 120 ∧ d < 80 then .Elevated
  else .Normal

/-- The classification policy as an explicit ordered list of
(predicate, label) pairs (spec §9 design note), against which `classify`
is checked. -/
def cascadeRules : List ((Int → Int → Bool) × Category) :=
  [ (fun s d => decide (s ≥ 180 ∨ d ≥ 120), .Crisis),
    (fun s d => decide (s ≥ 140 ∨ d ≥ 90), .Stage2),
    (fun s d => decide (s ≥ 130 ∨ d ≥ 80), .Stage1),
    (fun s d => decide (s ≥ 120 ∧ d < 80), .Elevated) ]

/-- Top-to-bottom, first-match evaluation of the cascade; `Normal` when no
rule matches. -/
def cascadeEval (s d : Int) : Category :=
  match cascadeRules.find? (fun rule => rule.1 s d) with
  | some rule => rule.2
  | none => .Normal

theorem classify_eq_cascadeEval (s d : Int) : classify s d = cascadeEval s d := by
  by_cases h1 : s ≥ 180 ∨ d ≥ 120 <;>
    by_cases h2 : s ≥ 140 ∨ d ≥ 90 <;>
      by_cases h3 : s ≥ 130 ∨ d ≥ 80 <;>
        by_cases h4 : s ≥ 120 ∧ d < 80 <;>
          simp [classify, cascadeEval, cascadeRules, List.find?, h1, h2, h3, h4]

/-- C1: for every systolic in [60,300] and diastolic in [30,200],
`classify` returns exactly one of the five labels, it agrees with the
ordered most-severe-first cascade evaluated with first match winning, and
repeated calls on the same inputs yield the same label. -/
theorem classify_cascade_correct (s d : Int)
    (hs1 : 60 ≤ s) (hs2 : s ≤ 300) (hd1 : 30 ≤ d) (hd2 : d ≤ 200) :
    (∃! c : Category, classify s d = c) ∧
    classify s d = cascadeEval s d ∧
    classify s d = classify s d :=
  ⟨⟨classify s d, rfl, fun _ h => h.symm⟩, classify_eq_cascadeEval s d, rfl⟩

/-- Witness for C1 at (120, 70). -/
theorem classify_cascade_correct_witness :
    (∃! c : Category, classify 120 70 = c) ∧
    classify 120 70 = cascadeEval 120 70 ∧
    classify 120 70 = classify 120 70 :=
  classify_cascade_correct 120 70 (by decide) (by decide) (by decide) (by decide)

/-- C2 counterexample: the claim asserts `classify(119,80) = Elevated`, but
the cascade's Stage 1 rule (diastolic ≥ 80) fires first, giving Stage 1. -/
theorem classify_119_80_not_elevated :
    classify 119 80 ≠ Category.Elevated ∧ classify 119 80 = Category.Stage1 := by
  constructor <;> decide

/-- C2 (amended): the §8 boundary cases hold as stated except (119,80),
which the cascade classifies as Stage 1 (the diastolic ≥ 80 boundary
triggers the Stage 1 rule before the Elevated rule is reached). -/
theorem classify_boundary_cases :
    classify 180 70 = Category.Crisis ∧
    classify 140 79 = Category.Stage2 ∧
    classify 130 79 = Category.Stage1 ∧
    classify 121 70 = Category.Elevated ∧
    classify 119 79 = Category.Normal ∧
    classify 119 80 = Category.Stage1 := by
  refine ⟨?_, ?_, ?_, ?_, ?_, ?_⟩ <;> decide

/-- One observation (spec §3); `category` is derived, never stored, so it is
not a field here.  Timestamps are integer day counts. -/
structure Reading where
  id : Nat
  systolic : Int
  diastolic : Int
  pulse : Int
  timestamp : Int
  notes : Option String := none
deriving DecidableEq, Repr

structure Averages where
  systolic : Rat
  diastolic : Rat
  pulse : Rat
deriving DecidableEq, Repr

structure Trends where
  systolic_change : Int
  diastolic_change : Int
  pulse_change : Int
deriving DecidableEq, Repr

/-- Aggregates over a window (spec §3 Summary). -/
structure Summary where
  total_readings : Nat
  averages : Averages
  category_distribution : List (Category × Nat)
  trends : Option Trends
deriving DecidableEq, Repr

def allCategories : List Category :=
  [.Normal, .Elevated, .Stage1, .Stage2, .Crisis]

/-- A reading is within the trailing window of `windowDays` days from `now`. -/
def inWindow (now windowDays : Int) (r : Reading) : Bool :=
  decide (now - windowDays ≤ r.timestamp) && decide (r.timestamp ≤ now)

/-- Arithmetic mean of a list of integer samples; zero on the empty list. -/
def mean (xs : List Int) : Rat :=
  if xs.length = 0 then 0 else (xs.sum : Rat) / (xs.length : Rat)

/-- Round to one decimal place (spec §4.1: averages are reported to one
decimal). -/
def round1 (x : Rat) : Rat := ((round (10 * x) : Int) : Rat) / 10

/-- Trend delta of one metric: the time-ordered samples are split into an
earlier half and a later half at the midpoint (earlier half gets the smaller
share when the count is odd), and mean(earlier) is subtracted from
mean(later), rounded to a whole number (spec §3/§4.1; the exact split is the
take/drop-at-midpoint choice left open by §9). -/
def trendChange (xs : List Int) : Int :=
  round (mean (xs.drop (xs.length / 2)) - mean (xs.take (xs.length / 2)))

def categoryCount (rs : List Reading) (c : Category) : Nat :=
  (rs.filter (fun r => classify r.systolic r.diastolic == c)).length

/-- Modelled from the spec: the backend `summarize(readings, windowDays)`
operation is absent from `src/`; this follows spec §4.1: filter the
time-ordered input to the trailing window from `now`, then compute the
count, per-metric means rounded to one decimal, the per-category counts
(only categories present appear, matching the §8 example
`category_distribution = Stage 2 : 1`), and the half-split trend deltas,
omitted when fewer than 2 readings remain. -/
def summarize (rs : List Reading) (windowDays now : Int) : Summary :=
  let filtered := rs.filter (inWindow now windowDays)
  { total_readings := filtered.length
    averages :=
      { systolic := round1 (mean (filtered.map (·.systolic)))
        diastolic := round1 (mean (filtered.map (·.diastolic)))
        pulse := round1 (mean (filtered.map (·.pulse))) }
    category_distribution :=
      (allCategories.map (fun c => (c, categoryCount filtered c))).filter
        (fun p => p.2 != 0)
    trends :=
      if filtered.length < 2 then none
      else some
        { systolic_change := trendChange (filtered.map (·.systolic))
          diastolic_change := trendChange (filtered.map (·.diastolic))
          pulse_change := trendChange (filtered.map (·.pulse)) } }

/-- The four-reading example of spec §8: (120,80), (130,85), (140,90),
(150,95) at consecutive days, pulse constant. -/
def fourReadings : List Reading :=
  [ { id := 1, systolic := 120, diastolic := 80, pulse := 70, timestamp := 0 },
    { id := 2, systolic := 130, diastolic := 85, pulse := 70, timestamp := 1 },
    { id := 3, systolic := 140, diastolic := 90, pulse := 70, timestamp := 2 },
    { id := 4, systolic := 150, diastolic := 95, pulse := 70, timestamp := 3 } ]

/-- C3: on a filtered, time-ordered sequence of at least 2 readings the
per-metric trend is mean(later half) − mean(earlier half) rounded to a
whole number, and on the §8 example the systolic trend is 20 and the
systolic average 135. -/
theorem summarize_trends_halves (rs : List Reading) (w now : Int)
    (hlen : 2 ≤ rs.length) (hin : ∀ r ∈ rs, inWindow now w r = true) :
    ((summarize rs w now).trends = some
      { systolic_change := round (mean ((rs.map (·.systolic)).drop (rs.length / 2)) -
          mean ((rs.map (·.systolic)).take (rs.length / 2)))
        diastolic_change := round (mean ((rs.map (·.diastolic)).drop (rs.length / 2)) -
          mean ((rs.map (·.diastolic)).take (rs.length / 2)))
        pulse_change := round (mean ((rs.map (·.pulse)).drop (rs.length / 2)) -
          mean ((rs.map (·.pulse)).take (rs.length / 2))) }) ∧
    (summarize fourReadings 30 3).trends =
      some { systolic_change := 20, diastolic_change := 10, pulse_change := 0 } ∧
    (summarize fourReadings 30 3).averages.systolic = 135 := by
  have hfe : fourReadings.filter (inWindow 3 30) = fourReadings := by decide
  refine ⟨?_, ?_, ?_⟩
  · have hfilter : rs.filter (inWindow now w) = rs := List.filter_eq_self.mpr hin
    simp only [summarize, hfilter]
    rw [if_neg (by omega)]
    simp [trendChange, List.length_map]
  · simp only [summarize, hfe]
    rw [if_neg (by decide)]
    refine congrArg some ?_
    simp only [Trends.mk.injEq]
    refine ⟨?_, ?_, ?_⟩ <;>
      · simp only [trendChange, fourReadings, List.map, List.length, List.drop,
          List.take, mean, List.sum]
        norm_num
  · simp only [summarize, hfe]
    simp only [round1, fourReadings, List.map, mean, List.length, List.sum]
    norm_num

/-- Witness for C3 on the §8 example itself. -/
theorem summarize_trends_halves_witness :
    ((summarize fourReadings 30 3).trends = some
      { systolic_change := round (mean ((fourReadings.map (·.systolic)).drop (fourReadings.length / 2)) -
          mean ((fourReadings.map (·.systolic)).take (fourReadings.length / 2)))
        diastolic_change := round (mean ((fourReadings.map (·.diastolic)).drop (fourReadings.length / 2)) -
          mean ((fourReadings.map (·.diastolic)).take (fourReadings.length / 2)))
        pulse_change := round (mean ((fourReadings.map (·.pulse)).drop (fourReadings.length / 2)) -
          mean ((fourReadings.map (·.pulse)).take (fourReadings.length / 2))) }) ∧
    (summarize fourReadings 30 3).trends =
      some { systolic_change := 20, diastolic_change := 10, pulse_change := 0 } ∧
    (summarize fourReadings 30 3).averages.systolic = 135 :=
  summarize_trends_halves fourReadings 30 3 (by decide) (by decide)

/-- C5: summarizing the empty list gives a zero summary with no trends, and
in general trends are omitted whenever fewer than 2 readings survive the
window filter. -/
theorem summarize_empty_and_degenerate :
    (∀ w now : Int, summarize [] w now =
      { total_readings := 0
        averages := { systolic := 0, diastolic := 0, pulse := 0 }
        category_distribution := []
        trends := none }) ∧
    (∀ (rs : List Reading) (w now : Int),
      (rs.filter (inWindow now w)).length < 2 → (summarize rs w now).trends = none) := by
  constructor
  · intro w now
    simp only [summarize, Summary.mk.injEq, Averages.mk.injEq]
    simp [mean, round1, allCategories, categoryCount]
  · intro rs w now h
    simp only [summarize]
    rw [if_pos h]

/-- The single Stage 2 reading of spec §8. -/
def singleReading : Reading :=
  { id := 1, systolic := 150, diastolic := 95, pulse := 70, timestamp := 0 }

/-- Witness for C5: the empty list and a one-element list. -/
theorem summarize_empty_and_degenerate_witness :
    summarize [] 30 0 =
      { total_readings := 0
        averages := { systolic := 0, diastolic := 0, pulse := 0 }
        category_distribution := []
        trends := none } ∧
    (summarize [singleReading] 30 0).trends = none :=
  ⟨summarize_empty_and_degenerate.1 30 0,
   summarize_empty_and_degenerate.2 [singleReading] 30 0 (by decide)⟩

/-- The gate on the analytics tab (App.js line 818,
`summary && summary.total_readings > 0 ? ... : ...`): the branch with the
derived content — category distribution, trends (when present) and the
health-goal cards — renders exactly when a summary is loaded and its
`total_readings` is positive. -/
def analyticsRendersDerivedContent (summary : Option Summary) : Bool :=
  match summary with
  | some s => decide (0 < s.total_readings)
  | none => false

/-- The trends card inside the derived branch additionally requires
`summary.trends` to be present (App.js line 841). -/
def analyticsRendersTrendSection (summary : Option Summary) : Bool :=
  analyticsRendersDerivedContent summary &&
    (match summary with
     | some s => s.trends.isSome
     | none => false)

/-- C4: the code renders the derived goal/analytics content for a summary
of a single reading, whose `total_readings = 1 < 3`, so the view does not
treat `total_readings < 3` as insufficient data — the gate is
`total_readings > 0`, although the insufficient-data branch's own text
says at least 3 readings are needed. -/
theorem analytics_renders_below_three :
    (summarize [singleReading] 30 0).total_readings = 1 ∧
    (summarize [singleReading] 30 0).total_readings < 3 ∧
    analyticsRendersDerivedContent (some (summarize [singleReading] 30 0)) = true := by
  refine ⟨by decide, by decide, by decide⟩

/-- Validation failures (spec §7 error taxonomy). -/
inductive ValidationError where
  | systolicOutOfRange
  | diastolicOutOfRange
  | pulseOutOfRange
deriving DecidableEq, Repr

/-- Modelled from the spec: the backend input validation for
`POST /readings` is absent from `src/`; spec §3/§7 requires each metric to
lie in its documented domain (systolic 60–300, diastolic 30–200, pulse
30–220, matching the form's min/max attributes in App.js lines 413–459)
and out-of-domain input to be rejected, never clamped. -/
def validateReading (s d p : Int) : Except ValidationError Unit :=
  if s < 60 ∨ s > 300 then .error .systolicOutOfRange
  else if d < 30 ∨ d > 200 then .error .diastolicOutOfRange
  else if p < 30 ∨ p > 220 then .error .pulseOutOfRange
  else .ok ()

/-- Modelled from the spec: the create path (spec §6 `POST /readings`)
validates first and only then attaches the category computed by
`classify`. -/
def createReadingCategory (s d p : Int) : Except ValidationError Category :=
  match validateReading s d p with
  | .error e => .error e
  | .ok _ => .ok (classify s d)

/-- C6: any reading with a metric outside its documented domain is rejected
with a validation error before classification, and `classify` is reached
exactly on in-domain inputs. -/
theorem validation_rejects_out_of_domain (s d p : Int) :
    ((s < 60 ∨ s > 300 ∨ d < 30 ∨ d > 200 ∨ p < 30 ∨ p > 220) →
      ∃ e, createReadingCategory s d p = .error e) ∧
    ((60 ≤ s ∧ s ≤ 300 ∧ 30 ≤ d ∧ d ≤ 200 ∧ 30 ≤ p ∧ p ≤ 220) →
      createReadingCategory s d p = .ok (classify s d)) := by
  constructor
  · intro h
    simp only [createReadingCategory, validateReading]
    by_cases h1 : s < 60 ∨ s > 300
    · rw [if_pos h1]; exact ⟨.systolicOutOfRange, rfl⟩
    · rw [if_neg h1]
      by_cases h2 : d < 30 ∨ d > 200
      · rw [if_pos h2]; exact ⟨.diastolicOutOfRange, rfl⟩
      · rw [if_neg h2]
        by_cases h3 : p < 30 ∨ p > 220
        · rw [if_pos h3]; exact ⟨.pulseOutOfRange, rfl⟩
        · exact absurd h (by push_neg at h1 h2 h3 ⊢; omega)
  · intro h
    simp only [createReadingCategory, validateReading]
    rw [if_neg (by omega), if_neg (by omega), if_neg (by omega)]

/-- Witness for C6: systolic 59 is rejected, (150, 95, 70) is classified. -/
theorem validation_rejects_out_of_domain_witness :
    (∃ e, createReadingCategory 59 80 70 = .error e) ∧
    createReadingCategory 150 95 70 = .ok (classify 150 95) :=
  ⟨(validation_rejects_out_of_domain 59 80 70).1 (by omega),
   (validation_rejects_out_of_domain 150 95 70).2 (by omega)⟩

/-- A second reading with a distinct id, for delete-path checks. -/
def secondReading : Reading :=
  { id := 2, systolic := 120, diastolic := 70, pulse := 65, timestamp := 1 }

/-- The delete operation (App.js lines 536-546): the reading with the given
id is removed, `readings.filter (fun r => r.id ≠ id)`, and the summary is
then recomputed from the remaining set. -/
def deleteReading (rid : Nat) (rs : List Reading) : List Reading :=
  rs.filter (fun r => r.id != rid)

theorem deleteReading_eq_erase (rs : List Reading) (r : Reading)
    (hmem : r ∈ rs) (hnodup : (rs.map Reading.id).Nodup) :
    deleteReading r.id rs = rs.erase r := by
  induction rs with
  | nil => cases hmem
  | cons a as ih =>
    simp only [List.map_cons, List.nodup_cons, List.mem_map] at hnodup
    by_cases ha : a = r
    · subst ha
      rw [List.erase_cons_head]
      simp only [deleteReading, List.filter_cons]
      rw [if_neg (by simp)]
      apply List.filter_eq_self.mpr
      intro x hx
      have : x.id ≠ a.id := fun h => hnodup.1 ⟨x, hx, h⟩
      simpa using this
    · have hmem' : r ∈ as := by
        rcases List.mem_cons.mp hmem with h | h
        · exact absurd h.symm ha
        · exact h
      have haid : a.id ≠ r.id := fun h => hnodup.1 ⟨r, hmem', h.symm⟩
      rw [List.erase_cons_tail (not_beq_of_ne ha)]
      simp only [deleteReading, List.filter_cons]
      rw [if_pos (by simpa using haid)]
      rw [deleteReading] at ih
      rw [ih hmem' hnodup.2]

/-- C7: when reading ids are unique, deleting a member reading `r` and
re-summarizing yields exactly the summary of the set with `r` removed —
the deleted reading contributes nothing to any aggregate. -/
theorem summarize_after_delete (rs : List Reading) (r : Reading) (w now : Int)
    (hmem : r ∈ rs) (hnodup : (rs.map Reading.id).Nodup) :
    summarize (deleteReading r.id rs) w now = summarize (rs.erase r) w now := by
  rw [deleteReading_eq_erase rs r hmem hnodup]

/-- Witness for C7 on a two-element list. -/
theorem summarize_after_delete_witness :
    summarize (deleteReading singleReading.id [singleReading, secondReading]) 30 3 =
      summarize ([singleReading, secondReading].erase singleReading) 30 3 :=
  summarize_after_delete [singleReading, secondReading] singleReading 30 3
    (by decide) (by decide)

/-- C8: `summarize` and `classify` are deterministic — two runs on
identical reading sets, window lengths and "now" references (resp. the
same systolic/diastolic pair) produce identical outputs. -/
theorem summarize_classify_deterministic :
    (∀ (rs₁ rs₂ : List Reading) (w₁ w₂ n₁ n₂ : Int),
      rs₁ = rs₂ → w₁ = w₂ → n₁ = n₂ → summarize rs₁ w₁ n₁ = summarize rs₂ w₂ n₂) ∧
    (∀ s₁ d₁ s₂ d₂ : Int, s₁ = s₂ → d₁ = d₂ → classify s₁ d₁ = classify s₂ d₂) := by
  constructor
  · intro rs₁ rs₂ w₁ w₂ n₁ n₂ h1 h2 h3
    rw [h1, h2, h3]
  · intro s₁ d₁ s₂ d₂ h1 h2
    rw [h1, h2]

/-- Witness for C8 on concrete inputs. -/
theorem summarize_classify_deterministic_witness :
    summarize fourReadings 30 3 = summarize fourReadings 30 3 ∧
    classify 150 95 = classify 150 95 :=
  ⟨summarize_classify_deterministic.1 fourReadings fourReadings 30 30 3 3 rfl rfl rfl,
   summarize_classify_deterministic.2 150 95 150 95 rfl rfl⟩

/-- The `colors` object of `getCategoryColor` (App.js lines 19-25). -/
def categoryColors : List (String × String) :=
  [ ("Normal", "bg-green-100 text-green-800 border-green-200"),
    ("Elevated", "bg-yellow-100 text-yellow-800 border-yellow-200"),
    ("Stage 1", "bg-orange-100 text-orange-800 border-orange-200"),
    ("Stage 2", "bg-red-100 text-red-800 border-red-200"),
    ("Crisis", "bg-red-200 text-red-900 border-red-300") ]

/-- The property names every JS object literal inherits from
`Object.prototype`, each bound to a truthy member (a function, or the
prototype object itself for `__proto__`). -/
def objectPrototypeKeys : List String :=
  [ "constructor", "hasOwnProperty", "isPrototypeOf", "propertyIsEnumerable",
    "toLocaleString", "toString", "valueOf", "__proto__", "__defineGetter__",
    "__defineSetter__", "__lookupGetter__", "__lookupSetter__" ]

/-- A JavaScript value as `getCategoryColor` can produce one: a string (a
color class or the gray fallback), or a truthy member inherited from
`Object.prototype`, identified by its property name. -/
inductive JsValue where
  | str (s : String)
  | protoMember (name : String)
deriving DecidableEq, Repr

/-- Embeds `getCategoryColor` (App.js lines 18-27) with JS property-access
semantics: `colors[category]` finds an own property among the five keys,
else an inherited `Object.prototype` member — which is truthy, so
`|| gray` keeps it — else `undefined`, which `|| gray` replaces by the
gray fallback classes; `none` models a JS `undefined` argument, whose
coerced key `"undefined"` misses both. -/
def getCategoryColor (category : Option String) : JsValue :=
  match category with
  | some c =>
    match categoryColors.lookup c with
    | some v => .str v
    | none =>
      if c ∈ objectPrototypeKeys then .protoMember c
      else .str "bg-gray-100 text-gray-800 border-gray-200"
  | none => .str "bg-gray-100 text-gray-800 border-gray-200"

/-- C9 counterexample: the claim says every string other than the five
labels yields the gray fallback, but at "toString" the lookup hits the
inherited `Object.prototype` member, which is truthy and survives the
`||`, so the result is not the gray class string. -/
theorem getCategoryColor_toString_not_gray :
    getCategoryColor (some "toString") ≠
      JsValue.str "bg-gray-100 text-gray-800 border-gray-200" ∧
    getCategoryColor (some "toString") = JsValue.protoMember "toString" := by
  constructor <;> decide

/-- C9 (amended): each of the five labels maps to its specific color
classes; an undefined category and every string that is neither a label
nor an inherited `Object.prototype` property name yield the gray fallback;
but an inherited property name such as "toString" yields the truthy
inherited member instead of the gray fallback, so the result is never
`undefined` yet not always a color-class string. -/
theorem getCategoryColor_characterized :
    getCategoryColor (some "Normal") = .str "bg-green-100 text-green-800 border-green-200" ∧
    getCategoryColor (some "Elevated") = .str "bg-yellow-100 text-yellow-800 border-yellow-200" ∧
    getCategoryColor (some "Stage 1") = .str "bg-orange-100 text-orange-800 border-orange-200" ∧
    getCategoryColor (some "Stage 2") = .str "bg-red-100 text-red-800 border-red-200" ∧
    getCategoryColor (some "Crisis") = .str "bg-red-200 text-red-900 border-red-300" ∧
    getCategoryColor none = .str "bg-gray-100 text-gray-800 border-gray-200" ∧
    (∀ s : String, s ∈ objectPrototypeKeys →
      getCategoryColor (some s) = .protoMember s) ∧
    (∀ s : String, s ∉ ["Normal", "Elevated", "Stage 1", "Stage 2", "Crisis"] →
      s ∉ objectPrototypeKeys →
      getCategoryColor (some s) = .str "bg-gray-100 text-gray-800 border-gray-200") := by
  refine ⟨by decide, by decide, by decide, by decide, by decide, rfl, by decide, ?_⟩
  intro s hlab hproto
  simp only [List.mem_cons, List.not_mem_nil, or_false, not_or] at hlab
  obtain ⟨h1, h2, h3, h4, h5⟩ := hlab
  have e1 : (s == "Normal") = false := beq_eq_false_iff_ne.mpr h1
  have e2 : (s == "Elevated") = false := beq_eq_false_iff_ne.mpr h2
  have e3 : (s == "Stage 1") = false := beq_eq_false_iff_ne.mpr h3
  have e4 : (s == "Stage 2") = false := beq_eq_false_iff_ne.mpr h4
  have e5 : (s == "Crisis") = false := beq_eq_false_iff_ne.mpr h5
  simp [getCategoryColor, categoryColors, List.lookup, e1, e2, e3, e4, e5, hproto]

/-- Witness for C9 at the inherited key "toLocaleString" and the unknown
label "Unknown". -/
theorem getCategoryColor_characterized_witness :
    getCategoryColor (some "toLocaleString") = JsValue.protoMember "toLocaleString" ∧
    getCategoryColor (some "Unknown") = JsValue.str "bg-gray-100 text-gray-800 border-gray-200" :=
  ⟨getCategoryColor_characterized.2.2.2.2.2.2.1 "toLocaleString" (by decide),
   getCategoryColor_characterized.2.2.2.2.2.2.2 "Unknown" (by decide) (by decide)⟩

/-- The systolic/diastolic trend badge text (App.js lines 850-876): the
change is labeled by its sign. -/
def bpTrendLabel (change : Int) : String :=
  if change > 0 then "Increasing"
  else if change < 0 then "Decreasing"
  else "Stable"

/-- The pulse trend badge text (App.js lines 884-890): stable exactly when
the absolute change is at most 2. -/
def pulseTrendLabel (change : Int) : String :=
  if change.natAbs ≤ 2 then "Stable" else "Variable"

/-- C10: for every change value, the blood-pressure trend label is
"Increasing" exactly when the change is positive, "Decreasing" exactly when
negative and "Stable" exactly when zero, and the pulse trend label is
"Stable" exactly when the absolute change is at most 2 and "Variable"
otherwise. -/
theorem trend_labels_characterized (c : Int) :
    (bpTrendLabel c = "Increasing" ↔ c > 0) ∧
    (bpTrendLabel c = "Decreasing" ↔ c < 0) ∧
    (bpTrendLabel c = "Stable" ↔ c = 0) ∧
    (pulseTrendLabel c = "Stable" ↔ c.natAbs ≤ 2) ∧
    (pulseTrendLabel c = "Variable" ↔ ¬c.natAbs ≤ 2) := by
  unfold bpTrendLabel pulseTrendLabel
  rcases lt_trichotomy c 0 with h | h | h
  · rw [if_neg (by omega), if_pos h]
    by_cases hp : c.natAbs ≤ 2
    · rw [if_pos hp]
      refine ⟨⟨fun he => absurd he (by decide), by omega⟩,
        ⟨fun _ => h, fun _ => rfl⟩,
        ⟨fun he => absurd he (by decide), by omega⟩,
        ⟨fun _ => hp, fun _ => rfl⟩,
        ⟨fun he => absurd he (by decide), fun hn => absurd hp hn⟩⟩
    · rw [if_neg hp]
      refine ⟨⟨fun he => absurd he (by decide), by omega⟩,
        ⟨fun _ => h, fun _ => rfl⟩,
        ⟨fun he => absurd he (by decide), by omega⟩,
        ⟨fun he => absurd he (by decide), fun hc => absurd hc hp⟩,
        ⟨fun _ => hp, fun _ => rfl⟩⟩
  · subst h
    rw [if_neg (by omega), if_neg (by omega), if_pos (by decide)]
    refine ⟨⟨fun he => absurd he (by decide), by omega⟩,
      ⟨fun he => absurd he (by decide), by omega⟩,
      ⟨fun _ => rfl, fun _ => rfl⟩,
      ⟨fun _ => by decide, fun _ => rfl⟩,
      ⟨fun he => absurd he (by decide), fun hn => absurd (by decide) hn⟩⟩
  · rw [if_pos h]
    by_cases hp : c.natAbs ≤ 2
    · rw [if_pos hp]
      refine ⟨⟨fun _ => h, fun _ => rfl⟩,
        ⟨fun he => absurd he (by decide), by omega⟩,
        ⟨fun he => absurd he (by decide), by omega⟩,
        ⟨fun _ => hp, fun _ => rfl⟩,
        ⟨fun he => absurd he (by decide), fun hn => absurd hp hn⟩⟩
    · rw [if_neg hp]
      refine ⟨⟨fun _ => h, fun _ => rfl⟩,
        ⟨fun he => absurd he (by decide), by omega⟩,
        ⟨fun he => absurd he (by decide), by omega⟩,
        ⟨fun he => absurd he (by decide), fun hc => absurd hc hp⟩,
        ⟨fun _ => hp, fun _ => rfl⟩⟩

/-- Witness for C10 at change = 3. -/
theorem trend_labels_characterized_witness :
    (bpTrendLabel 3 = "Increasing" ↔ (3 : Int) > 0) ∧
    (bpTrendLabel 3 = "Decreasing" ↔ (3 : Int) < 0) ∧
    (bpTrendLabel 3 = "Stable" ↔ (3 : Int) = 0) ∧
    (pulseTrendLabel 3 = "Stable" ↔ (3 : Int).natAbs ≤ 2) ∧
    (pulseTrendLabel 3 = "Variable" ↔ ¬(3 : Int).natAbs ≤ 2) :=
  trend_labels_characterized 3

end HeartRate
